import Mathlib

/-!
Verification of the WhatsWord Cloud Bridge relay server (`src/server.js`)
against its natural-language specification.

The server is a single-process relay: an in-memory `Map` from session ids to
session records, a WebSocket connection handler that binds transports to the
`host`/`guest` roles of a session, a message forwarder (`handleMessage`), a
per-connection close handler that detaches the binding and schedules a delayed
empty-session deletion, and a recurring idle sweep.

The embedding below is a shallow functional translation of that code:
  * transports (WebSocket handles) are identified by natural numbers; the
    `readyState` of each handle in the environment is passed to the handlers as a
    function `rs : Nat → Nat` (the code tests `readyState === 1`, i.e. OPEN);
  * wall-clock instants are passed in explicitly: `now : Nat` stands for
    `new Date()` (milliseconds) where the code stores or subtracts dates, and
    `nowIso : String` stands for `new Date().toISOString()` where the code
    stamps outgoing messages;
  * the side effects of a handler (sending a JSON message on a transport,
    closing a transport) are returned as an explicit list of `Effect`s, in the
    order the code performs them;
  * `uuidv4()` results are passed in as explicit string arguments, since the
    generator is an external randomness source.
-/

namespace WhatsWord

/-- JSON values as they appear in relayed message payloads.  The relay never
inspects payload values (it only spreads the parsed object and overwrites the
`sender` and `timestamp` keys), so nested arrays/objects are represented
abstractly by the `blob` constructor, tagged so that distinct nested values
stay distinct. -/
inductive JVal where
  | str : String → JVal
  | num : Int → JVal
  | jbool : Bool → JVal
  | jnull : JVal
  | blob : Nat → JVal
deriving DecidableEq, Repr

/-- A parsed JSON object: an association list of fields, looked up
first-match (a `JSON.parse` result has no duplicate keys). -/
abbrev JObj := List (String × JVal)

/-- Field lookup in a JSON object (first match wins). -/
def getKey : JObj → String → Option JVal
  | [], _ => none
  | (k, v) :: rest, key => if k = key then some v else getKey rest key

/-- The fields of `m` other than `sender` and `timestamp`.  Helper for the
object-spread expression `{ ...message, sender: ..., timestamp: ... }`:
in the spread result the `sender`/`timestamp` values coming from `message`
are overwritten, every other field keeps its original value. -/
def stripMeta : JObj → JObj
  | [] => []
  | (k, v) :: rest =>
    if k = "sender" ∨ k = "timestamp" then stripMeta rest
    else (k, v) :: stripMeta rest

/-- `augment m r t` models `{ ...m, sender: r, timestamp: t }` from
`handleMessage` (server.js:221-225): all fields of `m` pass through with
their original values except `sender` and `timestamp`, which are set to the
relay-chosen role and timestamp (overwriting any homonymous fields of `m`). -/
def augment (m : JObj) (senderRole nowIso : String) : JObj :=
  stripMeta m ++ [("sender", .str senderRole), ("timestamp", .str nowIso)]

/-- A session record, as documented at server.js:19-30.  `hostWs`/`guestWs`
are `null` or a bound transport handle; `hostId` is the secret the host must
present; `guestId` is assigned on first guest connect. -/
structure Session where
  id : String
  hostId : String
  guestId : Option String
  hostWs : Option Nat
  guestWs : Option Nat
  createdAt : Nat
  lastActivity : Nat
deriving DecidableEq, Repr

/-- The session registry: the `sessions : Map<string, Session>` of the server,
as an association list with unique keys. -/
abbrev Registry := List (String × Session)

/-- `sessions.get(sid)`. -/
def regGet : Registry → String → Option Session
  | [], _ => none
  | (k, s) :: rest, sid => if k = sid then some s else regGet rest sid

/-- `sessions.set(sid, s)`: replace the entry if the key is present, else
append a new entry. -/
def regSet : Registry → String → Session → Registry
  | [], sid, s => [(sid, s)]
  | (k, s0) :: rest, sid, s =>
    if k = sid then (sid, s) :: rest else (k, s0) :: regSet rest sid s

/-- `sessions.delete(sid)`. -/
def regDelete : Registry → String → Registry
  | [], _ => []
  | (k, s) :: rest, sid =>
    if k = sid then regDelete rest sid else (k, s) :: regDelete rest sid

/-- An observable side effect of a handler: sending a JSON message on a
transport, closing a transport with a status code and reason
(`ws.close(1008, reason)`), or closing it with no arguments (`ws.close()`,
as the idle sweep does). -/
inductive Effect where
  | send : Nat → JObj → Effect
  | closeWith : Nat → Nat → String → Effect
  | closeWs : Nat → Effect
deriving DecidableEq, Repr

/-- `handleMessage` (server.js:205-226): update `lastActivity`, pick the
target transport (guest for a `host` sender, host for any other sender), drop
the message if the target is unbound or not OPEN, otherwise forward the
message augmented with `sender` and `timestamp`. -/
def handleMessage (session : Session) (senderRole : String) (message : JObj)
    (rs : Nat → Nat) (now : Nat) (nowIso : String) : Session × List Effect :=
  let session := { session with lastActivity := now }
  let targetWs := if senderRole = "host" then session.guestWs else session.hostWs
  match targetWs with
  | none => (session, [])
  | some t =>
    if rs t = 1 then (session, [.send t (augment message senderRole nowIso)])
    else (session, [])

/-- The message event handler (server.js:154-161): `JSON.parse` the payload
inside a `try`; on success run `handleMessage`, on a parse failure log
locally and do nothing else.  The parse outcome is passed in as `parsed` (`none` models a
thrown parse error on a malformed payload). -/
def wsOnMessage (session : Session) (role : String) (parsed : Option JObj)
    (rs : Nat → Nat) (now : Nat) (nowIso : String) : Session × List Effect :=
  match parsed with
  | none => (session, [])
  | some m => handleMessage session role m rs now nowIso

theorem getKey_append (a b : JObj) (k : String) :
    getKey (a ++ b) k = match getKey a k with
      | some v => some v
      | none => getKey b k := by
  induction a with
  | nil => simp [getKey]
  | cons p rest ih =>
    obtain ⟨k0, v0⟩ := p
    by_cases h : k0 = k <;> simp [getKey, h, ih]

theorem getKey_stripMeta (m : JObj) (k : String)
    (h1 : k ≠ "sender") (h2 : k ≠ "timestamp") :
    getKey (stripMeta m) k = getKey m k := by
  induction m with
  | nil => rfl
  | cons p rest ih =>
    obtain ⟨k0, v0⟩ := p
    by_cases hm : k0 = "sender" ∨ k0 = "timestamp"
    · have hk : k0 ≠ k := by rcases hm with hm | hm <;> simp [hm, Ne.symm h1, Ne.symm h2]
      simp [stripMeta, hm, getKey, hk, ih]
    · by_cases hk : k0 = k <;> simp [stripMeta, hm, getKey, hk, ih, h1, h2]

theorem getKey_stripMeta_sender (m : JObj) : getKey (stripMeta m) "sender" = none := by
  induction m with
  | nil => rfl
  | cons p rest ih =>
    obtain ⟨k0, v0⟩ := p
    by_cases hm : k0 = "sender" ∨ k0 = "timestamp"
    · simp [stripMeta, hm, ih]
    · push_neg at hm
      simp [stripMeta, hm.1, hm.2, getKey, ih]

theorem getKey_stripMeta_timestamp (m : JObj) : getKey (stripMeta m) "timestamp" = none := by
  induction m with
  | nil => rfl
  | cons p rest ih =>
    obtain ⟨k0, v0⟩ := p
    by_cases hm : k0 = "sender" ∨ k0 = "timestamp"
    · simp [stripMeta, hm, ih]
    · push_neg at hm
      simp [stripMeta, hm.1, hm.2, getKey, ih]

theorem getKey_augment_sender (m : JObj) (r t : String) :
    getKey (augment m r t) "sender" = some (.str r) := by
  simp [augment, getKey_append, getKey_stripMeta_sender, getKey]

theorem getKey_augment_timestamp (m : JObj) (r t : String) :
    getKey (augment m r t) "timestamp" = some (.str t) := by
  simp [augment, getKey_append, getKey_stripMeta_timestamp, getKey]

theorem getKey_augment_other (m : JObj) (r t k : String)
    (h1 : k ≠ "sender") (h2 : k ≠ "timestamp") :
    getKey (augment m r t) k = getKey m k := by
  rw [augment, getKey_append, ← getKey_stripMeta m k h1 h2]
  cases h : getKey (stripMeta m) k with
  | some v => simp
  | none => simp [getKey, Ne.symm h1, Ne.symm h2, h]

/-- Claim C1: for an inbound message from role `R` in a session whose other
role has its transport bound and live (readyState OPEN), the relay delivers to
that transport exactly the original message augmented with `sender = R` and a
timestamp; every field other than `sender`/`timestamp` passes through with its
original value, so the forwarded payload is a superset of the original. -/
theorem relay_forwards_augmented_message
    (s : Session) (R : String) (m : JObj) (rs : Nat → Nat) (now : Nat)
    (nowIso : String) (t : Nat)
    (hbound : (if R = "host" then s.guestWs else s.hostWs) = some t)
    (hlive : rs t = 1) :
    handleMessage s R m rs now nowIso
      = ({ s with lastActivity := now }, [.send t (augment m R nowIso)])
    ∧ getKey (augment m R nowIso) "sender" = some (.str R)
    ∧ getKey (augment m R nowIso) "timestamp" = some (.str nowIso)
    ∧ ∀ k, k ≠ "sender" → k ≠ "timestamp" →
        getKey (augment m R nowIso) k = getKey m k := by
  refine ⟨?_, getKey_augment_sender m R nowIso, getKey_augment_timestamp m R nowIso,
    fun k h1 h2 => getKey_augment_other m R nowIso k h1 h2⟩
  by_cases hR : R = "host" <;>
    simp only [handleMessage, hR, if_pos, if_neg, reduceIte] <;>
    simp_all [handleMessage]

/-- Witness for C1: a host-to-guest forward on a concrete session with the
guest bound to transport 2 and live; the payload `{type:"message", text:"hi"}`
arrives with `sender="host"`, a timestamp, and `text` intact. -/
theorem relay_forwards_augmented_message_witness :
    handleMessage
        { id := "ABC12345", hostId := "h", guestId := some "g",
          hostWs := some 1, guestWs := some 2, createdAt := 0, lastActivity := 0 }
        "host" [("type", .str "message"), ("text", .str "hi")] (fun _ => 1) 7 "T"
      = ({ id := "ABC12345", hostId := "h", guestId := some "g",
           hostWs := some 1, guestWs := some 2, createdAt := 0, lastActivity := 7 },
         [.send 2 (augment [("type", .str "message"), ("text", .str "hi")] "host" "T")])
    ∧ getKey (augment [("type", .str "message"), ("text", .str "hi")] "host" "T") "sender"
        = some (.str "host")
    ∧ getKey (augment [("type", .str "message"), ("text", .str "hi")] "host" "T") "timestamp"
        = some (.str "T")
    ∧ getKey (augment [("type", .str "message"), ("text", .str "hi")] "host" "T") "text"
        = some (.str "hi") := by
  have h := relay_forwards_augmented_message
    { id := "ABC12345", hostId := "h", guestId := some "g",
      hostWs := some 1, guestWs := some 2, createdAt := 0, lastActivity := 0 }
    "host" [("type", .str "message"), ("text", .str "hi")] (fun _ => 1) 7 "T" 2
    (by decide) rfl
  exact ⟨h.1, h.2.1, h.2.2.1, h.2.2.2 "text" (by decide) (by decide)⟩

/-- Claim C7: when the binding of the peer role is unbound or its transport is not
live (readyState ≠ 1), `handleMessage` produces no effect at all — no outbound
message on any transport and no error back to the sender — but still updates
the `lastActivity` of the session. -/
theorem relay_drops_when_peer_absent
    (s : Session) (R : String) (m : JObj) (rs : Nat → Nat) (now : Nat)
    (nowIso : String)
    (hdead : ∀ t, (if R = "host" then s.guestWs else s.hostWs) = some t → rs t ≠ 1) :
    handleMessage s R m rs now nowIso = ({ s with lastActivity := now }, []) := by
  unfold handleMessage
  cases htgt : (if R = "host" then s.guestWs else s.hostWs) with
  | none => simp [htgt]
  | some t => simp [htgt, hdead t htgt]

/-- Witness for C7: a guest sends while no host is bound; nothing is emitted
and `lastActivity` becomes the message time. -/
theorem relay_drops_when_peer_absent_witness :
    handleMessage
        { id := "ABC12345", hostId := "h", guestId := some "g",
          hostWs := none, guestWs := some 2, createdAt := 0, lastActivity := 0 }
        "guest" [("type", .str "message")] (fun _ => 1) 9 "T"
      = ({ id := "ABC12345", hostId := "h", guestId := some "g",
           hostWs := none, guestWs := some 2, createdAt := 0, lastActivity := 9 }, []) :=
  relay_drops_when_peer_absent
    { id := "ABC12345", hostId := "h", guestId := some "g",
      hostWs := none, guestWs := some 2, createdAt := 0, lastActivity := 0 }
    "guest" [("type", .str "message")] (fun _ => 1) 9 "T"
    (by intro t ht; simp at ht)

/-- Claim C8: a payload that fails to parse (`JSON.parse` throws, caught by
the `try`/`catch` around the message handler) is discarded with only a local
log: no message is forwarded, no transport is closed, and the session is not
mutated.  Totality of `wsOnMessage` reflects that the handler never lets the
parse failure escape. -/
theorem malformed_payload_discarded
    (s : Session) (role : String) (rs : Nat → Nat) (now : Nat) (nowIso : String) :
    wsOnMessage s role none rs now nowIso = (s, []) := rfl

/-- Claim C9: every message `handleMessage` actually sends carries
`sender = R` (the true sending role) and a relay-chosen timestamp, whatever
fields — including a forged `sender` or `timestamp` — the inbound payload
contained; a peer cannot spoof the sender field. -/
theorem relay_sender_not_spoofable
    (s : Session) (R : String) (m : JObj) (rs : Nat → Nat) (now : Nat)
    (nowIso : String) (t : Nat) (fwd : JObj)
    (hsent : Effect.send t fwd ∈ (handleMessage s R m rs now nowIso).2) :
    getKey fwd "sender" = some (.str R)
    ∧ getKey fwd "timestamp" = some (.str nowIso) := by
  unfold handleMessage at hsent
  cases htgt : (if R = "host" then s.guestWs else s.hostWs) with
  | none => simp [htgt] at hsent
  | some t0 =>
    by_cases hrs : rs t0 = 1
    · simp [htgt, hrs] at hsent
      rw [hsent.2]
      exact ⟨getKey_augment_sender m R nowIso, getKey_augment_timestamp m R nowIso⟩
    · simp [htgt, hrs] at hsent

/-- Witness for C9: a guest sends a payload with a forged `sender:"host"`
field; the message delivered to the host still carries `sender="guest"`. -/
theorem relay_sender_not_spoofable_witness :
    getKey (augment [("type", .str "message"), ("sender", .str "host")] "guest" "T") "sender"
      = some (.str "guest")
    ∧ getKey (augment [("type", .str "message"), ("sender", .str "host")] "guest" "T") "timestamp"
      = some (.str "T") :=
  relay_sender_not_spoofable
    { id := "ABC12345", hostId := "h", guestId := some "g",
      hostWs := some 1, guestWs := some 2, createdAt := 0, lastActivity := 0 }
    "guest" [("type", .str "message"), ("sender", .str "host")] (fun _ => 1) 9 "T" 1
    (augment [("type", .str "message"), ("sender", .str "host")] "guest" "T")
    (by simp [handleMessage, augment, stripMeta])

/-- The `connected` acknowledgment (server.js:133-138). -/
def connectedMsg (role sessionId nowIso : String) : JObj :=
  [("type", .str "connected"), ("role", .str role),
   ("sessionId", .str sessionId), ("timestamp", .str nowIso)]

/-- The `guest_joined` notification to the host (server.js:122-126). -/
def guestJoinedMsg (guestId nowIso : String) : JObj :=
  [("type", .str "guest_joined"), ("guestId", .str guestId), ("timestamp", .str nowIso)]

/-- The `host_left` notification to the guest (server.js:172-175). -/
def hostLeftMsg (nowIso : String) : JObj :=
  [("type", .str "host_left"), ("timestamp", .str nowIso)]

/-- The `guest_left` notification to the host (server.js:181-184). -/
def guestLeftMsg (nowIso : String) : JObj :=
  [("type", .str "guest_left"), ("timestamp", .str nowIso)]

/-- The connection handler (server.js:85-138), up to and including the
`connected` acknowledgment.  Query parameters are `Option String` (`null` when
absent); the JS guard `!sessionId || !role` is falsy for both `null` and the
empty string.  `freshGuestId` stands for the `uuidv4()` drawn when a first
guest binds.  The transport being bound is `ws`. -/
def handleConnection (reg : Registry) (rs : Nat → Nat) (ws : Nat)
    (sessionIdParam roleParam clientIdParam : Option String)
    (freshGuestId : String) (now : Nat) (nowIso : String) : Registry × List Effect :=
  match sessionIdParam, roleParam with
  | some sessionId, some role =>
    if sessionId = "" ∨ role = "" then
      (reg, [.closeWith ws 1008 "Missing sessionId or role"])
    else
      match regGet reg sessionId with
      | none => (reg, [.closeWith ws 1008 "Session not found"])
      | some session =>
        if role = "host" then
          if clientIdParam ≠ some session.hostId then
            (reg, [.closeWith ws 1008 "Invalid host ID"])
          else
            (regSet reg sessionId { session with hostWs := some ws, lastActivity := now },
             [.send ws (connectedMsg role sessionId nowIso)])
        else if role = "guest" then
          let gid := session.guestId.getD freshGuestId
          let joined :=
            match session.hostWs with
            | some h => if rs h = 1 then [.send h (guestJoinedMsg gid nowIso)] else []
            | none => []
          (regSet reg sessionId
             { session with guestId := some gid, guestWs := some ws, lastActivity := now },
           joined ++ [.send ws (connectedMsg role sessionId nowIso)])
        else
          (regSet reg sessionId { session with lastActivity := now },
           [.send ws (connectedMsg role sessionId nowIso)])
  | _, _ => (reg, [.closeWith ws 1008 "Missing sessionId or role"])

/-- Claim C2: a connection attempt with role `host` on an existing session
whose supplied secret (`clientId`) differs from the stored
`hostId` is rejected: the transport is closed with status 1008 (policy
violation) and the registry — in particular the session and its host
binding — is left exactly as it was.  (When the session id happens to be the
empty string the attempt is rejected even earlier, by the missing-parameter
guard, with the same status code and likewise no mutation.) -/
theorem host_secret_mismatch_rejected
    (reg : Registry) (rs : Nat → Nat) (ws : Nat) (sid : String)
    (clientIdParam : Option String) (gid : String) (now : Nat) (nowIso : String)
    (s : Session)
    (hs : regGet reg sid = some s)
    (hsecret : clientIdParam ≠ some s.hostId) :
    (handleConnection reg rs ws (some sid) (some "host") clientIdParam gid now nowIso).1 = reg
    ∧ ((handleConnection reg rs ws (some sid) (some "host") clientIdParam gid now nowIso).2
          = [.closeWith ws 1008 "Invalid host ID"]
       ∨ (handleConnection reg rs ws (some sid) (some "host") clientIdParam gid now nowIso).2
          = [.closeWith ws 1008 "Missing sessionId or role"]) := by
  by_cases hsid : sid = ""
  · simp [handleConnection, hsid]
  · simp [handleConnection, hsid, hs, hsecret]

/-- Witness for C2: a host connect with a wrong secret on a concrete
one-session registry is closed with 1008 and leaves the registry unchanged. -/
theorem host_secret_mismatch_rejected_witness :
    (handleConnection
        [("ABC12345", { id := "ABC12345", hostId := "good-secret", guestId := none,
                        hostWs := none, guestWs := none, createdAt := 0, lastActivity := 0 })]
        (fun _ => 1) 5 (some "ABC12345") (some "host") (some "bad-secret") "g" 3 "T").1
      = [("ABC12345", { id := "ABC12345", hostId := "good-secret", guestId := none,
                        hostWs := none, guestWs := none, createdAt := 0, lastActivity := 0 })]
    ∧ ((handleConnection
        [("ABC12345", { id := "ABC12345", hostId := "good-secret", guestId := none,
                        hostWs := none, guestWs := none, createdAt := 0, lastActivity := 0 })]
        (fun _ => 1) 5 (some "ABC12345") (some "host") (some "bad-secret") "g" 3 "T").2
          = [.closeWith 5 1008 "Invalid host ID"]
       ∨ (handleConnection
        [("ABC12345", { id := "ABC12345", hostId := "good-secret", guestId := none,
                        hostWs := none, guestWs := none, createdAt := 0, lastActivity := 0 })]
        (fun _ => 1) 5 (some "ABC12345") (some "host") (some "bad-secret") "g" 3 "T").2
          = [.closeWith 5 1008 "Missing sessionId or role"]) :=
  host_secret_mismatch_rejected
    [("ABC12345", { id := "ABC12345", hostId := "good-secret", guestId := none,
                    hostWs := none, guestWs := none, createdAt := 0, lastActivity := 0 })]
    (fun _ => 1) 5 "ABC12345" (some "bad-secret") "g" 3 "T"
    { id := "ABC12345", hostId := "good-secret", guestId := none,
      hostWs := none, guestWs := none, createdAt := 0, lastActivity := 0 }
    (by decide) (by decide)

/-- Counterexample to C10 as stated: the empty string is a role string that is
neither `"host"` nor `"guest"`, yet a connection attempt carrying it on an
existing session IS rejected — the JS guard `!sessionId || !role` treats the
empty role as missing and closes the transport with 1008, sending no
`connected` acknowledgment. -/
theorem unknown_role_counterexample :
    handleConnection
        [("ABC12345", { id := "ABC12345", hostId := "h", guestId := none,
                        hostWs := none, guestWs := none, createdAt := 0, lastActivity := 0 })]
        (fun _ => 1) 5 (some "ABC12345") (some "") none "g" 3 "T"
      = ([("ABC12345", { id := "ABC12345", hostId := "h", guestId := none,
                         hostWs := none, guestWs := none, createdAt := 0, lastActivity := 0 })],
         [.closeWith 5 1008 "Missing sessionId or role"]) := by
  simp [handleConnection]

/-- Claim C10 (amended): for a connection attempt carrying an existing,
nonempty session id and a NONEMPTY role string that is neither `host` nor
`guest`, the connection is not rejected: it gets a `connected` acknowledgment
echoing that role, no binding of the session is attached or changed (only
`lastActivity` is updated), and any message it then sends is routed to the
host binding, exactly as for a non-host sender. -/
theorem unknown_role_accepted_unbound
    (reg : Registry) (rs : Nat → Nat) (ws : Nat) (sid role : String)
    (clientIdParam : Option String) (gid : String) (now : Nat) (nowIso : String)
    (s : Session)
    (hs : regGet reg sid = some s)
    (hsid : sid ≠ "") (hrole : role ≠ "")
    (hhost : role ≠ "host") (hguest : role ≠ "guest") :
    handleConnection reg rs ws (some sid) (some role) clientIdParam gid now nowIso
      = (regSet reg sid { s with lastActivity := now },
         [.send ws (connectedMsg role sid nowIso)])
    ∧ ∀ (s' : Session) (m : JObj) (rs' : Nat → Nat) (now' : Nat) (iso' : String) (h : Nat),
        s'.hostWs = some h → rs' h = 1 →
        handleMessage s' role m rs' now' iso'
          = ({ s' with lastActivity := now' }, [.send h (augment m role iso')]) := by
  constructor
  · simp [handleConnection, hsid, hrole, hs, hhost, hguest]
  · intro s' m rs' now' iso' h hbound hlive
    simp [handleMessage, hhost, hbound, hlive]

/-- Witness for amended C10: role `"observer"` on a concrete session is
acknowledged, binds nothing, and its messages go to the host transport 1. -/
theorem unknown_role_accepted_unbound_witness :
    handleConnection
        [("ABC12345", { id := "ABC12345", hostId := "h", guestId := none,
                        hostWs := some 1, guestWs := none, createdAt := 0, lastActivity := 0 })]
        (fun _ => 1) 5 (some "ABC12345") (some "observer") none "g" 3 "T"
      = (regSet
           [("ABC12345", { id := "ABC12345", hostId := "h", guestId := none,
                           hostWs := some 1, guestWs := none, createdAt := 0, lastActivity := 0 })]
           "ABC12345"
           { id := "ABC12345", hostId := "h", guestId := none,
             hostWs := some 1, guestWs := none, createdAt := 0, lastActivity := 3 },
         [.send 5 (connectedMsg "observer" "ABC12345" "T")])
    ∧ handleMessage
        { id := "ABC12345", hostId := "h", guestId := none,
          hostWs := some 1, guestWs := none, createdAt := 0, lastActivity := 3 }
        "observer" [("type", .str "message")] (fun _ => 1) 4 "U"
      = ({ id := "ABC12345", hostId := "h", guestId := none,
           hostWs := some 1, guestWs := none, createdAt := 0, lastActivity := 4 },
         [.send 1 (augment [("type", .str "message")] "observer" "U")]) := by
  have h := unknown_role_accepted_unbound
    [("ABC12345", { id := "ABC12345", hostId := "h", guestId := none,
                    hostWs := some 1, guestWs := none, createdAt := 0, lastActivity := 0 })]
    (fun _ => 1) 5 "ABC12345" "observer" none "g" 3 "T"
    { id := "ABC12345", hostId := "h", guestId := none,
      hostWs := some 1, guestWs := none, createdAt := 0, lastActivity := 0 }
    (by decide) (by decide) (by decide) (by decide) (by decide)
  exact ⟨h.1,
    h.2 { id := "ABC12345", hostId := "h", guestId := none,
          hostWs := some 1, guestWs := none, createdAt := 0, lastActivity := 3 }
      [("type", .str "message")] (fun _ => 1) 4 "U" 1 rfl rfl⟩

/-- Empty-session grace period: the `5 * 60 * 1000` ms of the `setTimeout`
in the close handler (server.js:189-194). -/
def emptyGraceMs : Nat := 5 * 60 * 1000

/-- Idle timeout: the `30 * 60 * 1000` ms threshold of the sweep
(server.js:245). -/
def idleTimeoutMs : Nat := 30 * 60 * 1000

/-- Idle-sweep period: the `10 * 60 * 1000` ms of the global `setInterval`
(server.js:255). -/
def idleSweepEveryMs : Nat := 10 * 60 * 1000

/-- The role-specific part of the close event handler (server.js:168-186):
detach the binding of the closed role and, if the peer transport is bound and
OPEN, send it
the matching `host_left`/`guest_left` notification.  Note the handler does NOT
touch `lastActivity`. -/
def closeSession (session : Session) (role : String) (rs : Nat → Nat)
    (nowIso : String) : Session × List Effect :=
  if role = "host" then
    ({ session with hostWs := none },
     match session.guestWs with
     | some g => if rs g = 1 then [.send g (hostLeftMsg nowIso)] else []
     | none => [])
  else if role = "guest" then
    ({ session with guestWs := none },
     match session.hostWs with
     | some h => if rs h = 1 then [.send h (guestLeftMsg nowIso)] else []
     | none => [])
  else (session, [])

/-- The close event handler (server.js:164-195) for a connection whose session is in
the registry (the close handler mutates the session object captured in the
registry): detach and notify via `closeSession`, and unconditionally schedule
the one-shot empty-session timer, returned as the pair
`(fire instant, session id)`. -/
def handleClose (reg : Registry) (rs : Nat → Nat) (sessionId role : String)
    (now : Nat) (nowIso : String) : Registry × List Effect × (Nat × String) :=
  match regGet reg sessionId with
  | none => (reg, [], (now + emptyGraceMs, sessionId))
  | some session =>
    let r := closeSession session role rs nowIso
    (regSet reg sessionId r.1, r.2, (now + emptyGraceMs, sessionId))

/-- The body of the empty-session `setTimeout` callback (server.js:189-194),
run when the timer fires: delete the session exactly when both bindings are
still unbound. -/
def reaperFire (reg : Registry) (sessionId : String) : Registry :=
  match regGet reg sessionId with
  | none => reg
  | some s =>
    if s.hostWs = none ∧ s.guestWs = none then regDelete reg sessionId else reg

theorem regGet_regDelete_self (reg : Registry) (sid : String) :
    regGet (regDelete reg sid) sid = none := by
  induction reg with
  | nil => rfl
  | cons p rest ih =>
    obtain ⟨k, s⟩ := p
    by_cases hk : k = sid <;> simp [regDelete, regGet, hk, ih]

theorem regGet_regSet_self (reg : Registry) (sid : String) (s : Session) :
    regGet (regSet reg sid s) sid = some s := by
  induction reg with
  | nil => simp [regSet, regGet]
  | cons p rest ih =>
    obtain ⟨k, s0⟩ := p
    by_cases hk : k = sid <;> simp [regSet, regGet, hk, ih]

/-- Counterexample to C3 as stated: closing the bound host transport of a
concrete session whose `lastActivity` is 0, at close time 999, leaves
`lastActivity` at 0 — the close handler does not update it, contradicting the
claim that the binder updates the lastActivity of the session on close. -/
theorem close_lastActivity_counterexample :
    ((regGet
        (handleClose
          [("ABC12345", { id := "ABC12345", hostId := "h", guestId := some "g",
                          hostWs := some 1, guestWs := some 2,
                          createdAt := 0, lastActivity := 0 })]
          (fun _ => 1) "ABC12345" "host" 999 "T").1
        "ABC12345").map Session.lastActivity) ≠ some 999 := by
  decide

/-- Claim C3 (amended): when a bound transport of role `host` or `guest`
closes, the close handler detaches exactly the binding of that role (all other
session fields — `lastActivity` included — keep their old values: the handler
does NOT update `lastActivity`), and if the transport of the peer role is bound
and live it sends the peer exactly one `host_left`/`guest_left` notification,
matching the closed role and carrying a timestamp. -/
theorem close_detaches_and_notifies
    (reg : Registry) (rs : Nat → Nat) (sid role : String) (now : Nat)
    (nowIso : String) (s : Session)
    (hs : regGet reg sid = some s) :
    (role = "host" →
      regGet (handleClose reg rs sid role now nowIso).1 sid
          = some { s with hostWs := none }
      ∧ (∀ g, s.guestWs = some g → rs g = 1 →
          (handleClose reg rs sid role now nowIso).2.1 = [.send g (hostLeftMsg nowIso)])
      ∧ (s.guestWs = none → (handleClose reg rs sid role now nowIso).2.1 = []))
    ∧ (role = "guest" →
      regGet (handleClose reg rs sid role now nowIso).1 sid
          = some { s with guestWs := none }
      ∧ (∀ h, s.hostWs = some h → rs h = 1 →
          (handleClose reg rs sid role now nowIso).2.1 = [.send h (guestLeftMsg nowIso)])
      ∧ (s.hostWs = none → (handleClose reg rs sid role now nowIso).2.1 = [])) := by
  constructor
  · intro hrole
    subst hrole
    refine ⟨?_, ?_, ?_⟩
    · simp [handleClose, hs, closeSession, regGet_regSet_self]
    · intro g hg hlive
      simp [handleClose, hs, closeSession, hg, hlive]
    · intro hg
      simp [handleClose, hs, closeSession, hg]
  · intro hrole
    subst hrole
    refine ⟨?_, ?_, ?_⟩
    · simp [handleClose, hs, closeSession, regGet_regSet_self]
    · intro h hh hlive
      simp [handleClose, hs, closeSession, hh, hlive]
    · intro hh
      simp [handleClose, hs, closeSession, hh]

/-- Witness for amended C3: the guest (transport 2, live) closes while the
host (transport 1, live) is bound; the guest binding is detached,
`lastActivity` keeps its old value 0, and the host receives one
`guest_left`. -/
theorem close_detaches_and_notifies_witness :
    regGet
        (handleClose
          [("ABC12345", { id := "ABC12345", hostId := "h", guestId := some "g",
                          hostWs := some 1, guestWs := some 2,
                          createdAt := 0, lastActivity := 0 })]
          (fun _ => 1) "ABC12345" "guest" 999 "T").1
        "ABC12345"
      = some { id := "ABC12345", hostId := "h", guestId := some "g",
               hostWs := some 1, guestWs := none, createdAt := 0, lastActivity := 0 }
    ∧ (handleClose
          [("ABC12345", { id := "ABC12345", hostId := "h", guestId := some "g",
                          hostWs := some 1, guestWs := some 2,
                          createdAt := 0, lastActivity := 0 })]
          (fun _ => 1) "ABC12345" "guest" 999 "T").2.1
      = [.send 1 (guestLeftMsg "T")] := by
  have h := close_detaches_and_notifies
    [("ABC12345", { id := "ABC12345", hostId := "h", guestId := some "g",
                    hostWs := some 1, guestWs := some 2,
                    createdAt := 0, lastActivity := 0 })]
    (fun _ => 1) "ABC12345" "guest" 999 "T"
    { id := "ABC12345", hostId := "h", guestId := some "g",
      hostWs := some 1, guestWs := some 2, createdAt := 0, lastActivity := 0 }
    (by decide)
  exact ⟨(h.2 rfl).1, (h.2 rfl).2.1 1 rfl rfl⟩

/-- Claim C5: the close handler always schedules a one-shot timer at
close-time + the 5-minute grace period for the id of the closed session (in
particular at the close that makes the second binding unbound); when the
timer fires, the session is deleted exactly when both bindings are still
unbound at fire time — so a session left fully unbound through the grace
period is gone from the registry, while a reconnection during the grace
period (either binding bound at fire time) leaves the registry untouched. -/
theorem empty_session_reaped_after_grace
    (reg : Registry) (rs : Nat → Nat) (sid role : String) (now : Nat)
    (nowIso : String) :
    (handleClose reg rs sid role now nowIso).2.2 = (now + emptyGraceMs, sid)
    ∧ (∀ (reg' : Registry) (s' : Session), regGet reg' sid = some s' →
        (regGet (reaperFire reg' sid) sid = none
          ↔ (s'.hostWs = none ∧ s'.guestWs = none)))
    ∧ (∀ (reg' : Registry) (s' : Session), regGet reg' sid = some s' →
        (s'.hostWs ≠ none ∨ s'.guestWs ≠ none) → reaperFire reg' sid = reg') := by
  refine ⟨?_, ?_, ?_⟩
  · unfold handleClose
    cases regGet reg sid <;> rfl
  · intro reg' s' hs'
    constructor
    · intro hdel
      by_contra hboth
      simp only [reaperFire, hs', if_neg hboth] at hdel
      exact Option.noConfusion hdel
    · intro hboth
      simp only [reaperFire, hs', if_pos hboth]
      exact regGet_regDelete_self reg' sid
  · intro reg' s' hs' hbound
    have hneg : ¬(s'.hostWs = none ∧ s'.guestWs = none) := by
      rintro ⟨h1, h2⟩
      rcases hbound with hb | hb
      · exact hb h1
      · exact hb h2
    simp only [reaperFire, hs', if_neg hneg]

/-- Witness for C5: a concrete fully-unbound session is deleted at fire time,
a concrete session re-bound during the grace period survives, and the timer
scheduled by a concrete close fires 5 minutes after the close. -/
theorem empty_session_reaped_after_grace_witness :
    (handleClose
        [("ABC12345", { id := "ABC12345", hostId := "h", guestId := some "g",
                        hostWs := none, guestWs := some 2,
                        createdAt := 0, lastActivity := 0 })]
        (fun _ => 1) "ABC12345" "guest" 1000 "T").2.2
      = (1000 + emptyGraceMs, "ABC12345")
    ∧ (regGet
        (reaperFire
          [("ABC12345", { id := "ABC12345", hostId := "h", guestId := some "g",
                          hostWs := none, guestWs := none,
                          createdAt := 0, lastActivity := 0 })]
          "ABC12345")
        "ABC12345" = none
       ↔ ((none : Option Nat) = none ∧ (none : Option Nat) = none))
    ∧ reaperFire
        [("ABC12345", { id := "ABC12345", hostId := "h", guestId := some "g",
                        hostWs := some 3, guestWs := none,
                        createdAt := 0, lastActivity := 0 })]
        "ABC12345"
      = [("ABC12345", { id := "ABC12345", hostId := "h", guestId := some "g",
                        hostWs := some 3, guestWs := none,
                        createdAt := 0, lastActivity := 0 })] := by
  refine ⟨(empty_session_reaped_after_grace
      [("ABC12345", { id := "ABC12345", hostId := "h", guestId := some "g",
                      hostWs := none, guestWs := some 2,
                      createdAt := 0, lastActivity := 0 })]
      (fun _ => 1) "ABC12345" "guest" 1000 "T").1, ?_, ?_⟩
  · exact (empty_session_reaped_after_grace
      [] (fun _ => 1) "ABC12345" "guest" 1000 "T").2.1
      [("ABC12345", { id := "ABC12345", hostId := "h", guestId := some "g",
                      hostWs := none, guestWs := none,
                      createdAt := 0, lastActivity := 0 })]
      { id := "ABC12345", hostId := "h", guestId := some "g",
        hostWs := none, guestWs := none, createdAt := 0, lastActivity := 0 }
      (by decide)
  · exact (empty_session_reaped_after_grace
      [] (fun _ => 1) "ABC12345" "guest" 1000 "T").2.2
      [("ABC12345", { id := "ABC12345", hostId := "h", guestId := some "g",
                      hostWs := some 3, guestWs := none,
                      createdAt := 0, lastActivity := 0 })]
      { id := "ABC12345", hostId := "h", guestId := some "g",
        hostWs := some 3, guestWs := none, createdAt := 0, lastActivity := 0 }
      (by decide) (by decide)

/-- The transport closes the sweep performs for one session (server.js:249-250):
`session.hostWs.close()` then `session.guestWs.close()`, each only when
bound. -/
def closeBoth (s : Session) : List Effect :=
  (match s.hostWs with
   | some w => [Effect.closeWs w]
   | none => []) ++
  (match s.guestWs with
   | some w => [Effect.closeWs w]
   | none => [])

/-- The idle sweep (server.js:243-255): one tick of the recurring
`setInterval` at time `now`.  Every session whose `lastActivity` age strictly
exceeds `idleTimeoutMs` has its bound transports closed and is deleted; every
other session is kept untouched.  (`now - lastActivity` is `Nat` subtraction;
a session with `lastActivity` in the future yields 0, as the JS negative
difference also fails the `>` test.) -/
def idleSweep : Registry → Nat → Registry × List Effect
  | [], _ => ([], [])
  | (sid, s) :: rest, now =>
    if now - s.lastActivity > idleTimeoutMs then
      ((idleSweep rest now).1, closeBoth s ++ (idleSweep rest now).2)
    else ((sid, s) :: (idleSweep rest now).1, (idleSweep rest now).2)

theorem regGet_eq_none_of_not_mem (reg : Registry) (sid : String)
    (h : sid ∉ reg.map Prod.fst) : regGet reg sid = none := by
  induction reg with
  | nil => rfl
  | cons p rest ih =>
    obtain ⟨k, s⟩ := p
    simp only [List.map_cons, List.mem_cons] at h
    push_neg at h
    simp [regGet, Ne.symm h.1, ih h.2]

theorem idleSweep_get_none (reg : Registry) (now : Nat) (sid : String)
    (h : regGet reg sid = none) : regGet (idleSweep reg now).1 sid = none := by
  induction reg with
  | nil => rfl
  | cons p rest ih =>
    obtain ⟨k, s⟩ := p
    by_cases hk : k = sid
    · simp [regGet, hk] at h
    · simp only [regGet, if_neg hk] at h
      by_cases hexp : now - s.lastActivity > idleTimeoutMs <;>
        simp [idleSweep, hexp, regGet, hk, ih h]

theorem closeBoth_mem_host (s : Session) (w : Nat) (h : s.hostWs = some w) :
    Effect.closeWs w ∈ closeBoth s := by
  simp [closeBoth, h]

theorem closeBoth_mem_guest (s : Session) (w : Nat) (h : s.guestWs = some w) :
    Effect.closeWs w ∈ closeBoth s := by
  cases hh : s.hostWs <;> simp [closeBoth, h, hh]

/-- Claim C6: on a sweep tick at time `now`, every registered session whose
`lastActivity` age exceeds the idle timeout is deleted and each of its bound
transports receives a close, while every session whose age does not exceed
the timeout stays in the registry unchanged. -/
theorem idle_sweep_evicts_stale_sessions
    (reg : Registry) (now : Nat)
    (hnodup : (reg.map Prod.fst).Nodup)
    (sid : String) (s : Session) (hs : regGet reg sid = some s) :
    if now - s.lastActivity > idleTimeoutMs then
      regGet (idleSweep reg now).1 sid = none
      ∧ (∀ w, s.hostWs = some w → Effect.closeWs w ∈ (idleSweep reg now).2)
      ∧ (∀ w, s.guestWs = some w → Effect.closeWs w ∈ (idleSweep reg now).2)
    else regGet (idleSweep reg now).1 sid = some s := by
  induction reg with
  | nil => exact absurd hs (by simp [regGet])
  | cons p rest ih =>
    obtain ⟨k, s0⟩ := p
    simp only [List.map_cons, List.nodup_cons] at hnodup
    by_cases hk : k = sid
    · subst hk
      have hss : s0 = s := by simpa [regGet] using hs
      subst hss
      have hrest : regGet rest k = none := regGet_eq_none_of_not_mem rest k hnodup.1
      by_cases hexp : now - s0.lastActivity > idleTimeoutMs
      · rw [if_pos hexp]
        refine ⟨?_, ?_, ?_⟩
        · simp only [idleSweep, if_pos hexp]
          exact idleSweep_get_none rest now k hrest
        · intro w hw
          simp only [idleSweep, if_pos hexp]
          exact List.mem_append_left _ (closeBoth_mem_host s0 w hw)
        · intro w hw
          simp only [idleSweep, if_pos hexp]
          exact List.mem_append_left _ (closeBoth_mem_guest s0 w hw)
      · rw [if_neg hexp]
        simp [idleSweep, hexp, regGet]
    · have hrest : regGet rest sid = some s := by simpa [regGet, hk] using hs
      have hind := ih hnodup.2 hrest
      by_cases hexp : now - s.lastActivity > idleTimeoutMs
      · rw [if_pos hexp] at hind ⊢
        by_cases hexp0 : now - s0.lastActivity > idleTimeoutMs
        · simp only [idleSweep, if_pos hexp0]
          exact ⟨hind.1,
            fun w hw => List.mem_append_right _ (hind.2.1 w hw),
            fun w hw => List.mem_append_right _ (hind.2.2 w hw)⟩
        · simp only [idleSweep, if_neg hexp0]
          exact ⟨by simp [regGet, hk, hind.1], hind.2.1, hind.2.2⟩
      · rw [if_neg hexp] at hind ⊢
        by_cases hexp0 : now - s0.lastActivity > idleTimeoutMs <;>
          simp [idleSweep, hexp0, regGet, hk, hind]

/-- Witness for C6: a two-session registry swept at `now = 31 minutes`; the
session idle since time 0 (both transports bound: 1 and 2) is deleted and
both transports are closed, while the recently active one survives
unchanged. -/
theorem idle_sweep_evicts_stale_sessions_witness :
    regGet (idleSweep
        [("STALE000", { id := "STALE000", hostId := "h1", guestId := some "g1",
                        hostWs := some 1, guestWs := some 2,
                        createdAt := 0, lastActivity := 0 }),
         ("FRESH000", { id := "FRESH000", hostId := "h2", guestId := none,
                        hostWs := some 3, guestWs := none,
                        createdAt := 0, lastActivity := 1860000 })]
        1860000).1 "STALE000" = none
    ∧ Effect.closeWs 1 ∈ (idleSweep
        [("STALE000", { id := "STALE000", hostId := "h1", guestId := some "g1",
                        hostWs := some 1, guestWs := some 2,
                        createdAt := 0, lastActivity := 0 }),
         ("FRESH000", { id := "FRESH000", hostId := "h2", guestId := none,
                        hostWs := some 3, guestWs := none,
                        createdAt := 0, lastActivity := 1860000 })]
        1860000).2
    ∧ Effect.closeWs 2 ∈ (idleSweep
        [("STALE000", { id := "STALE000", hostId := "h1", guestId := some "g1",
                        hostWs := some 1, guestWs := some 2,
                        createdAt := 0, lastActivity := 0 }),
         ("FRESH000", { id := "FRESH000", hostId := "h2", guestId := none,
                        hostWs := some 3, guestWs := none,
                        createdAt := 0, lastActivity := 1860000 })]
        1860000).2
    ∧ regGet (idleSweep
        [("STALE000", { id := "STALE000", hostId := "h1", guestId := some "g1",
                        hostWs := some 1, guestWs := some 2,
                        createdAt := 0, lastActivity := 0 }),
         ("FRESH000", { id := "FRESH000", hostId := "h2", guestId := none,
                        hostWs := some 3, guestWs := none,
                        createdAt := 0, lastActivity := 1860000 })]
        1860000).1 "FRESH000"
      = some { id := "FRESH000", hostId := "h2", guestId := none,
               hostWs := some 3, guestWs := none,
               createdAt := 0, lastActivity := 1860000 } := by
  have hstale := idle_sweep_evicts_stale_sessions
    [("STALE000", { id := "STALE000", hostId := "h1", guestId := some "g1",
                    hostWs := some 1, guestWs := some 2,
                    createdAt := 0, lastActivity := 0 }),
     ("FRESH000", { id := "FRESH000", hostId := "h2", guestId := none,
                    hostWs := some 3, guestWs := none,
                    createdAt := 0, lastActivity := 1860000 })]
    1860000 (by decide) "STALE000"
    { id := "STALE000", hostId := "h1", guestId := some "g1",
      hostWs := some 1, guestWs := some 2, createdAt := 0, lastActivity := 0 }
    (by decide)
  have hfresh := idle_sweep_evicts_stale_sessions
    [("STALE000", { id := "STALE000", hostId := "h1", guestId := some "g1",
                    hostWs := some 1, guestWs := some 2,
                    createdAt := 0, lastActivity := 0 }),
     ("FRESH000", { id := "FRESH000", hostId := "h2", guestId := none,
                    hostWs := some 3, guestWs := none,
                    createdAt := 0, lastActivity := 1860000 })]
    1860000 (by decide) "FRESH000"
    { id := "FRESH000", hostId := "h2", guestId := none,
      hostWs := some 3, guestWs := none, createdAt := 0, lastActivity := 1860000 }
    (by decide)
  rw [if_pos (show 1860000 - (0 : Nat) > idleTimeoutMs by decide)] at hstale
  rw [if_neg (show ¬ (1860000 - (1860000 : Nat) > idleTimeoutMs) by decide)] at hfresh
  exact ⟨hstale.1, hstale.2.1 1 rfl, hstale.2.2 2 rfl, hfresh⟩

/-- Character-wise ASCII/Unicode uppercasing, modelling `.toUpperCase()`.
(Same per-character semantics as `String.toUpper`, stated on the character
list so that it evaluates by kernel reduction.) -/
def strUpper (s : String) : String := ⟨s.data.map Char.toUpper⟩

/-- The JSON body returned by `POST /api/session/create` (server.js:51-55). -/
structure CreateResult where
  sessionId : String
  hostId : String
  guestUrl : String
deriving DecidableEq, Repr

/-- A freshly created session record (server.js:37-45). -/
def freshSession (sessionId hostId : String) (now : Nat) : Session :=
  { id := sessionId, hostId := hostId, guestId := none,
    hostWs := none, guestWs := none, createdAt := now, lastActivity := now }

/-- The session-creation handler (server.js:33-56): the session id is the
uppercased first 8 characters of a fresh `uuidv4()` (`uuidSession`), the host
secret is a second fresh `uuidv4()` (`uuidHost`); the record is inserted with
`sessions.set` with no check that the id is unused.  `guestBase` is the
configured guest base URL. -/
def createSession (reg : Registry) (uuidSession uuidHost : String) (now : Nat)
    (guestBase : String) : Registry × CreateResult :=
  let sessionId := strUpper (uuidSession.take 8)
  (regSet reg sessionId (freshSession sessionId uuidHost now),
   { sessionId := sessionId, hostId := uuidHost,
     guestUrl := guestBase ++ "/join/" ++ sessionId })

/-- `N` sequential create requests, with the uuid pair and request time of
each; returns the final registry and the session ids handed out, in order. -/
def createMany (reg : Registry) (guestBase : String) :
    List (String × String × Nat) → Registry × List String
  | [] => (reg, [])
  | (u, h, t) :: rest =>
    let r := createSession reg u h t guestBase
    let tail := createMany r.1 guestBase rest
    (tail.1, r.2.sessionId :: tail.2)

/-- Counterexample to C4 as stated: creation never consults the registry, so
two sequential creates whose (distinct) uuids share the same first 8
characters return the SAME session id — the second id is not fresh (it is
already present in the registry at the time of the second create) and the
two returned ids are not pairwise distinct. -/
theorem create_id_collision_counterexample :
    (createSession [] "deadbeef-1111-4111-8111-111111111111" "hostsecret-1" 0 "http://g").2.sessionId
      = (createSession
          (createSession [] "deadbeef-1111-4111-8111-111111111111" "hostsecret-1" 0 "http://g").1
          "deadbeef-2222-4222-8222-222222222222" "hostsecret-2" 5 "http://g").2.sessionId
    ∧ regGet
        (createSession [] "deadbeef-1111-4111-8111-111111111111" "hostsecret-1" 0 "http://g").1
        (createSession
          (createSession [] "deadbeef-1111-4111-8111-111111111111" "hostsecret-1" 0 "http://g").1
          "deadbeef-2222-4222-8222-222222222222" "hostsecret-2" 5 "http://g").2.sessionId
      ≠ none := by
  constructor
  · rfl
  · decide

/-- Claim C4 (amended): each create returns as session id the uppercased
8-character prefix of its freshly drawn uuid (inserting the new session under
that id unconditionally, overwriting on collision); hence the ids of N
sequential creates are pairwise distinct exactly when the generated uuid
prefixes are — the code relies on uuid randomness and performs no freshness
check against the registry. -/
theorem create_ids_distinct_iff_prefixes_distinct
    (reg : Registry) (guestBase : String) (inputs : List (String × String × Nat))
    (hpre : (inputs.map (fun i => strUpper (i.1.take 8))).Nodup) :
    (createMany reg guestBase inputs).2 = inputs.map (fun i => strUpper (i.1.take 8))
    ∧ (createMany reg guestBase inputs).2.Nodup := by
  have hids : ∀ (r : Registry) (l : List (String × String × Nat)),
      (createMany r guestBase l).2 = l.map (fun i => strUpper (i.1.take 8)) := by
    intro r l
    induction l generalizing r with
    | nil => rfl
    | cons p rest ih =>
      obtain ⟨u, h, t⟩ := p
      simp [createMany, createSession, ih]
  refine ⟨hids reg inputs, ?_⟩
  rw [hids reg inputs]
  exact hpre

/-- Witness for amended C4: two creates whose uuids have distinct 8-character
prefixes yield the two distinct ids `"AAAA1111"` and `"BBBB2222"`. -/
theorem create_ids_distinct_iff_prefixes_distinct_witness :
    (createMany [] "http://g"
        [("aaaa1111-1111-4111-8111-111111111111", "hs1", 0),
         ("bbbb2222-2222-4222-8222-222222222222", "hs2", 5)]).2
      = ["AAAA1111", "BBBB2222"]
    ∧ (createMany [] "http://g"
        [("aaaa1111-1111-4111-8111-111111111111", "hs1", 0),
         ("bbbb2222-2222-4222-8222-222222222222", "hs2", 5)]).2.Nodup := by
  have h := create_ids_distinct_iff_prefixes_distinct [] "http://g"
    [("aaaa1111-1111-4111-8111-111111111111", "hs1", 0),
     ("bbbb2222-2222-4222-8222-222222222222", "hs2", 5)]
    (by decide)
  exact ⟨by rw [h.1]; rfl, h.2⟩

end WhatsWord
